import Mathlib

/-!
Shallow embedding of the GEE_script4landsat repository: Google Earth Engine
scripts computing Landsat spectral indices (NDVI, NDBI, NDWI) and fractional
vegetation cover (FVC).

Images are modelled as lists of named bands; a band assigns to each pixel
position an optional rational value, where `none` is the Earth Engine
masked / no-data pixel. The Earth Engine operators the scripts invoke
(select, updateMask, expression with division, where, addBands, the mean and
max collection reducers) are given their documented per-pixel semantics:
division by zero yields a masked pixel, reducers aggregate only unmasked
contributions, and `where` leaves masked pixels masked.
-/

/-- Pixel positions on the common grid. -/
abbrev Pos := Nat × Nat

/-- A raster band: per-pixel optional value; `none` is a masked pixel. -/
abbrev Pix := Pos → Option ℚ

/-- An Earth Engine image: a list of named bands. -/
structure EEImage where
  bands : List (String × Pix)

/-- Models `image.select(name)`: the first band with the given name, or an
all-masked band when the image has no band of that name. -/
def selectBand (img : EEImage) (name : String) : Pix := fun p =>
  match img.bands.find? (fun b => b.1 == name) with
  | some b => b.2 p
  | none => none

/-- Band names of an image, in order. -/
def bandNames (img : EEImage) : List String := img.bands.map Prod.fst

/-- Surface reflectance rescale applied to every reflectance band before the
formula: multiply by 0.0000275 and add -0.2 (source: `multiply(0.0000275).add(-0.2)`). -/
def reflScale (v : ℚ) : ℚ := v * (275 / 10000000) + (-2 / 10)

/-- Models the expression `(a - b) / (a + b)` on already-rescaled values: Earth
Engine division by zero yields a masked pixel. -/
def ndRaw (a b : ℚ) : Option ℚ :=
  if a + b = 0 then none else some ((a - b) / (a + b))

/-- Models the chained `x.where(x.lt(-1), -1).where(x.gt(1), 1)` clamp on one
valid pixel value; both tests read the original raster variable. -/
def clampedND (v : ℚ) : ℚ :=
  let v1 := if v < -1 then -1 else v
  if 1 < v then 1 else v1

/-- Models `fvc.where(fvc.lt(0), 0).where(fvc.gt(1), 1)` on one valid pixel. -/
def clampedFVC (v : ℚ) : ℚ :=
  let v1 := if v < 0 then 0 else v
  if 1 < v then 1 else v1

/-- Generalized normalized-difference evaluator on one pixel of the two chosen
reflectance bands, as written in computeNDVI / computeNDBI / computeNDWI:
rescale both inputs, evaluate `(a - b) / (a + b)`, then clamp into [-1, 1];
a masked input or a zero rescaled sum yields a masked pixel. -/
def normDiffPixel (av bv : Option ℚ) : Option ℚ :=
  match av, bv with
  | some a, some b => (ndRaw (reflScale a) (reflScale b)).map clampedND
  | _, _ => none

/-- Band names used by the NDVI script (source `getBandNames`): NIR and Red. -/
structure NdviBands where
  nir : String
  red : String
deriving DecidableEq

/-- Band selection of landsat_ndvi_analysis.js: modern profile for L8/L9,
legacy profile otherwise. -/
def getBandNames (satellite : String) : NdviBands :=
  if satellite = "L8" ∨ satellite = "L9" then
    { nir := "SR_B5", red := "SR_B4" }
  else
    { nir := "SR_B4", red := "SR_B3" }

/-- Band names used by the NDBI script: SWIR and NIR. -/
structure NdbiBands where
  swir : String
  nir : String
deriving DecidableEq

/-- Band selection of landsat_ndbi_analysis.js (its `getBandNames`). -/
def getBandNamesNDBI (satellite : String) : NdbiBands :=
  if satellite = "L8" ∨ satellite = "L9" then
    { swir := "SR_B7", nir := "SR_B5" }
  else
    { swir := "SR_B7", nir := "SR_B4" }

/-- Band names used by the NDWI script: Green and NIR. -/
structure NdwiBands where
  nir : String
  green : String
deriving DecidableEq

/-- Band selection of landsat_ndwi_analysis.js (its `getBandNames`). -/
def getBandNamesNDWI (satellite : String) : NdwiBands :=
  if satellite = "L8" ∨ satellite = "L9" then
    { nir := "SR_B5", green := "SR_B3" }
  else
    { nir := "SR_B4", green := "SR_B2" }

/-- Integer view of a QA band value (QA_PIXEL holds 16-bit naturals). -/
def qaToNat (q : ℚ) : ℕ := q.num.toNat

/-- Models `qa.bitwiseAnd(1 << 3).or(qa.bitwiseAnd(1 << 4))` as a boolean:
true when bit 3 (cloud shadow) or bit 4 (cloud) of the QA value is set. -/
def cloudMaskBit (q : ℚ) : Bool :=
  (qaToNat q &&& (1 <<< 3) ≠ 0) || (qaToNat q &&& (1 <<< 4) ≠ 0)

/-- Models maskClouds: select QA_PIXEL, build the cloud/shadow mask, and
`updateMask` its negation over every band of the image. A pixel whose QA value
is masked, or whose QA value has bit 3 or 4 set, becomes masked in every band;
the image itself (its list of bands) is kept. -/
def maskClouds (img : EEImage) : EEImage :=
  ⟨img.bands.map (fun b =>
    (b.1, fun p =>
      match selectBand img "QA_PIXEL" p with
      | none => none
      | some q => if cloudMaskBit q then none else b.2 p))⟩

/-- Models computeNDVI: evaluate the normalized difference of the NIR and Red
bands per pixel, rename it NDVI, and `addBands` it onto the input image. -/
def computeNDVI (img : EEImage) (satellite : String) : EEImage :=
  ⟨img.bands ++
    [("NDVI", fun p =>
      normDiffPixel (selectBand img (getBandNames satellite).nir p)
                    (selectBand img (getBandNames satellite).red p))]⟩

/-- Models computeNDBI: normalized difference of SWIR and NIR, added as NDBI. -/
def computeNDBI (img : EEImage) (satellite : String) : EEImage :=
  ⟨img.bands ++
    [("NDBI", fun p =>
      normDiffPixel (selectBand img (getBandNamesNDBI satellite).swir p)
                    (selectBand img (getBandNamesNDBI satellite).nir p))]⟩

/-- Models computeNDWI: normalized difference of Green and NIR, added as NDWI. -/
def computeNDWI (img : EEImage) (satellite : String) : EEImage :=
  ⟨img.bands ++
    [("NDWI", fun p =>
      normDiffPixel (selectBand img (getBandNamesNDWI satellite).green p)
                    (selectBand img (getBandNamesNDWI satellite).nir p))]⟩

/-- Supported satellite table (source `SATELLITES`): identifier to collection. -/
def SATELLITES : List (String × String) :=
  [("L4", "LANDSAT/LT04/C02/T1_L2"),
   ("L5", "LANDSAT/LT05/C02/T1_L2"),
   ("L7", "LANDSAT/LE07/C02/T1_L2"),
   ("L8", "LANDSAT/LC08/C02/T1_L2"),
   ("L9", "LANDSAT/LC09/C02/T1_L2")]

/-- Lookup of a satellite identifier in the table, as `SATELLITES[id]`. -/
def lookupSatellite (id : String) : Option String :=
  (SATELLITES.find? (fun s => s.1 == id)).map Prod.snd

/-- Errors the scripts can raise (thrown JS errors, plus the ReferenceError
produced by reading an undeclared variable). -/
inductive PipelineError where
  | unknownSatellite (id : String)
  | unsupportedStatType (t : String)
  | unsupportedNdviType (t : String)
  | refErr (name : String)
deriving DecidableEq

/-- Valid (unmasked) contributions among a stack of per-scene pixel values. -/
def validVals (l : List (Option ℚ)) : List ℚ := l.filterMap id

/-- Models the ee.Reducer.mean composite used by `collection.mean()`: the
arithmetic mean of the unmasked contributions at the pixel; masked when no
contribution is valid. -/
def aggMean (l : List (Option ℚ)) : Option ℚ :=
  match validVals l with
  | [] => none
  | x :: xs => some ((x :: xs).sum / (x :: xs).length)

/-- Models the ee.Reducer.max composite used by `collection.max()`: the
maximum unmasked contribution at the pixel; masked when none is valid. -/
def aggMax (l : List (Option ℚ)) : Option ℚ :=
  match validVals l with
  | [] => none
  | x :: xs => some (xs.foldl max x)

/-- Per-pixel body of calculateFVC (src/unnamed/part_001 lines 98-115): the
expression `(NDVI - NDVI_soil) / (NDVI_veg - NDVI_soil)` against constant
threshold images, then the chained where clamp into [0, 1]. A masked NDVI
pixel, or a zero denominator (Earth Engine division by zero), yields a masked
pixel; the function raises no error. -/
def fvcPixel (ndvi : Option ℚ) (ndvi_soil ndvi_veg : ℚ) : Option ℚ :=
  match ndvi with
  | none => none
  | some x =>
    if ndvi_veg - ndvi_soil = 0 then none
    else some (clampedFVC ((x - ndvi_soil) / (ndvi_veg - ndvi_soil)))

/-- Models calculateFVC on a whole NDVI raster: per-pixel `fvcPixel`, renamed
FVC (the rename does not change values). -/
def calculateFVC (ndviImage : Pix) (ndvi_soil ndvi_veg : ℚ) : Pix :=
  fun p => fvcPixel (ndviImage p) ndvi_soil ndvi_veg

/-- Models the JavaScript default idiom `v || d` on an optional numeric
parameter: an absent value takes the default, and so does a supplied 0,
because 0 is falsy in JavaScript. -/
def jsOrDefault (v : Option ℚ) (d : ℚ) : ℚ :=
  match v with
  | none => d
  | some x => if x = 0 then d else x

/-- Models the fixed-threshold assignment of exports.calculateFVC:
`params.ndvi_soil = params.ndvi_soil || 0.2` and
`params.ndvi_veg = params.ndvi_veg || 0.86`, the pair the fixed branch then
uses unchanged. -/
def fixedThresholds (soilOpt vegOpt : Option ℚ) : ℚ × ℚ :=
  (jsOrDefault soilOpt (2/10), jsOrDefault vegOpt (86/100))

/-- Per-scene processing shared by the scripts: maskClouds then computeNDVI. -/
def processScene (satellite : String) (img : EEImage) : EEImage :=
  computeNDVI (maskClouds img) satellite

/-- Per-pixel temporal composite of the NDVI bands of a processed collection:
`collection.select(NDVI).max()` when the selector is max, else `.mean()`. -/
def compositeNDVI (statType : String) (coll : List EEImage) : Pix :=
  fun p =>
    let vals := coll.map (fun s => selectBand s "NDVI" p)
    if statType = "max" then aggMax vals else aggMean vals

/-- Models the body of the per-period closure inside exports.calculateFVC
(src/unnamed/part_001 lines 151-242) for one time period, with the scene
collection the filtered catalog would yield for that period given as a list:
mask and compute NDVI per scene; when the collection is empty, warn and
return with no output (`Option.none`); otherwise composite the NDVI stack.
In automatic-threshold mode the source then reads the undeclared variable
`ndviMax` (line 189: `calculateNDVIThresholds(ndviMax, params.geometry)`),
which in JavaScript throws a ReferenceError before any threshold is
estimated; in fixed mode it computes the FVC raster from the given pair. -/
def processPeriod (satellite ndviType : String) (autoThreshold : Bool)
    (ndvi_soil ndvi_veg : ℚ) (scenes : List EEImage) :
    Except PipelineError (Option Pix) :=
  let coll := scenes.map (processScene satellite)
  if coll.isEmpty then .ok none
  else
    let ndviImage := compositeNDVI ndviType coll
    if autoThreshold then .error (.refErr "ndviMax")
    else .ok (some (calculateFVC ndviImage ndvi_soil ndvi_veg))

/-- Models the `params.timePeriods.forEach` loop of exports.calculateFVC: the
periods are processed in order and a thrown error aborts the whole loop. -/
def processBatch (satellite ndviType : String) (autoThreshold : Bool)
    (ndvi_soil ndvi_veg : ℚ) :
    List (List EEImage) → Except PipelineError (List (Option Pix))
  | [] => .ok []
  | ps :: rest =>
    match processPeriod satellite ndviType autoThreshold ndvi_soil ndvi_veg ps with
    | .error e => .error e
    | .ok o =>
      match processBatch satellite ndviType autoThreshold ndvi_soil ndvi_veg rest with
      | .error e => .error e
      | .ok os => .ok (o :: os)

/-- Models exports.calculateFVC (src/unnamed/part_001 lines 129-243): validate
the satellite identifier against SATELLITES, validate ndviType, apply the
`||` defaults to the threshold parameters, then process every time period. -/
def calculateFVCMain (satelliteId ndviType : String) (autoThreshold : Bool)
    (soilOpt vegOpt : Option ℚ) (periods : List (List EEImage)) :
    Except PipelineError (List (Option Pix)) :=
  if (lookupSatellite satelliteId).isNone then
    .error (.unknownSatellite satelliteId)
  else if ndviType ≠ "max" ∧ ndviType ≠ "mean" then
    .error (.unsupportedNdviType ndviType)
  else
    let t := fixedThresholds soilOpt vegOpt
    processBatch satelliteId ndviType autoThreshold t.1 t.2 periods

/-- Models exports.calculateNDVIStats (src/landsat_ndvi_analysis.js lines
112-212) up to the composite raster it exports: the satellite identifier is
validated first, then the statistic type, both before the image collection is
touched; then each scene is masked, NDVI is computed, and the NDVI bands are
composited with the selected statistic. -/
def calculateNDVIStats (satelliteId statType : String) (scenes : List EEImage) :
    Except PipelineError Pix :=
  if (lookupSatellite satelliteId).isNone then
    .error (.unknownSatellite satelliteId)
  else if statType ≠ "mean" ∧ statType ≠ "max" then
    .error (.unsupportedStatType statType)
  else
    .ok (compositeNDVI statType (scenes.map (processScene satelliteId)))

lemma clampedND_eq_clamp (v : ℚ) : clampedND v = max (-1) (min 1 v) := by
  show (if 1 < v then 1 else if v < -1 then (-1 : ℚ) else v) = max (-1) (min 1 v)
  split_ifs with h1 h2
  · rw [min_eq_left (le_of_lt h1), max_eq_right (by norm_num)]
  · rw [min_eq_right (by linarith), max_eq_left (by linarith)]
  · rw [min_eq_right (le_of_not_lt h1), max_eq_right (le_of_not_lt h2)]

lemma clampedFVC_eq_clamp (v : ℚ) : clampedFVC v = max 0 (min 1 v) := by
  show (if 1 < v then 1 else if v < 0 then (0 : ℚ) else v) = max 0 (min 1 v)
  split_ifs with h1 h2
  · rw [min_eq_left (le_of_lt h1), max_eq_right (by norm_num)]
  · rw [min_eq_right (by linarith), max_eq_left (by linarith)]
  · rw [min_eq_right (le_of_not_lt h1), max_eq_right (le_of_not_lt h2)]

/-- C1: the index evaluator shared by computeNDVI, computeNDBI and computeNDWI
first rescales each selected reflectance value by multiplying by 0.0000275 and
adding -0.2, computes the raw quotient (A - B) / (A + B) on the rescaled
values, and clamps it into [-1, 1] only afterwards (a raw quotient of 3/2
clamps to 1); when the rescaled sum is 0 the pixel is masked, and every
produced pixel value lies in [-1, 1]. -/
theorem normdiff_rescale_clamp_and_range (n r : ℚ) :
    (reflScale n + reflScale r = 0 → normDiffPixel (some n) (some r) = none)
  ∧ (reflScale n + reflScale r ≠ 0 →
      normDiffPixel (some n) (some r) =
        some (max (-1) (min 1
          ((reflScale n - reflScale r) / (reflScale n + reflScale r)))))
  ∧ (∀ v, normDiffPixel (some n) (some r) = some v → -1 ≤ v ∧ v ≤ 1)
  ∧ clampedND (3/2) = 1
  ∧ reflScale n = n * (275 / 10000000) + (-2 / 10) := by
  refine ⟨fun h => ?_, fun h => ?_, fun v hv => ?_, ?_, rfl⟩
  · simp [normDiffPixel, ndRaw, h]
  · simp only [normDiffPixel, ndRaw, if_neg h, Option.map_some', clampedND_eq_clamp]
  · simp only [normDiffPixel, ndRaw] at hv
    rcases em (reflScale n + reflScale r = 0) with h | h
    · simp [h] at hv
    · simp only [if_neg h, Option.map_some', Option.some.injEq] at hv
      rw [← hv, clampedND_eq_clamp]
      constructor
      · exact le_max_left _ _
      · exact max_le (by norm_num) (min_le_left _ _)
  · rw [clampedND_eq_clamp]
    norm_num

/-- Witness for C1 at concrete digital numbers: rescaled NIR 80000/11 and Red
80000/11 sum to zero and yield a masked pixel, while NIR 16000 and Red 0
give rescaled values 0.24 and -0.2, hence a raw quotient of 11, clamped
to exactly 1. -/
theorem normdiff_rescale_clamp_and_range_witness :
    normDiffPixel (some (80000/11)) (some (80000/11)) = none
  ∧ normDiffPixel (some 16000) (some 0) = some 1 := by
  constructor
  · exact (normdiff_rescale_clamp_and_range (80000/11) (80000/11)).1
      (by norm_num [reflScale])
  · rw [(normdiff_rescale_clamp_and_range 16000 0).2.1 (by norm_num [reflScale])]
    norm_num [reflScale]

/-- C2: for every ThresholdPair with distinct endpoints, calculateFVC computes
per pixel the clamp into [0, 1] of (NDVI - ndvi_soil) / (ndvi_veg - ndvi_soil);
it is 0 at NDVI = ndvi_soil, 1 at NDVI = ndvi_veg, and every produced pixel
value lies in [0, 1]. -/
theorem fvc_clamped_linear_mixture (ndvi_soil ndvi_veg x : ℚ)
    (hne : ndvi_veg ≠ ndvi_soil) :
    fvcPixel (some x) ndvi_soil ndvi_veg =
      some (max 0 (min 1 ((x - ndvi_soil) / (ndvi_veg - ndvi_soil))))
  ∧ fvcPixel (some ndvi_soil) ndvi_soil ndvi_veg = some 0
  ∧ fvcPixel (some ndvi_veg) ndvi_soil ndvi_veg = some 1
  ∧ ∀ y v, fvcPixel y ndvi_soil ndvi_veg = some v → 0 ≤ v ∧ v ≤ 1 := by
  have hden : ndvi_veg - ndvi_soil ≠ 0 := sub_ne_zero.mpr hne
  have hgen : ∀ z : ℚ, fvcPixel (some z) ndvi_soil ndvi_veg =
      some (max 0 (min 1 ((z - ndvi_soil) / (ndvi_veg - ndvi_soil)))) := by
    intro z
    simp only [fvcPixel, if_neg hden, clampedFVC_eq_clamp]
  refine ⟨hgen x, ?_, ?_, ?_⟩
  · rw [hgen ndvi_soil]
    norm_num
  · rw [hgen ndvi_veg, div_self hden]
    norm_num
  · intro y v hv
    match y with
    | none => simp [fvcPixel] at hv
    | some z =>
      rw [hgen z, Option.some.injEq] at hv
      rw [← hv]
      exact ⟨le_max_left _ _, max_le (by norm_num) (min_le_left _ _)⟩

/-- Witness for C2 at the default thresholds 0.2 and 0.86: FVC is 0 at the
soil endpoint, 1 at the vegetation endpoint, and NDVI 0.5 gives 5/11. -/
theorem fvc_clamped_linear_mixture_witness :
    fvcPixel (some (2/10)) (2/10) (86/100) = some 0
  ∧ fvcPixel (some (86/100)) (2/10) (86/100) = some 1
  ∧ fvcPixel (some (1/2)) (2/10) (86/100) = some (5/11) := by
  have h := fvc_clamped_linear_mixture (2/10) (86/100) (1/2) (by norm_num)
  refine ⟨h.2.1, h.2.2.1, ?_⟩
  rw [h.1]
  norm_num

/-- A one-scene example collection used as a concrete input: a valid QA value
and the two L8 reflectance bands. -/
def degenerateScene : EEImage :=
  ⟨[("QA_PIXEL", fun _ => some ((1 : ℕ) : ℚ)),
    ("SR_B5", fun _ => some 30000),
    ("SR_B4", fun _ => some 10000)]⟩

/-- Counterexample to C3: invoking the FVC computation with
ndvi_veg = ndvi_soil = 0.2 on a nonempty period raises no error at all - the
period completes with an FVC raster - and the degenerate denominator instead
silently masks the pixel value (here NDVI 0.5); no DegenerateThreshold error
exists in the code. -/
theorem degenerate_threshold_not_fatal_counterexample :
    (processPeriod "L8" "max" false (2/10) (2/10) [degenerateScene]).isOk = true
  ∧ fvcPixel (some (1/2)) (2/10) (2/10) = none := by
  constructor
  · rfl
  · norm_num [fvcPixel]

/-- C3 as amended: when ndvi_veg = ndvi_soil, calculateFVC raises no error for
that period; Earth Engine division by the zero denominator masks every pixel,
so the FVC raster holds no values, and the period is still reported as
processed (other periods and products unaffected). -/
theorem degenerate_threshold_silently_masks (ndvi_soil : ℚ) (y : Option ℚ)
    (satellite ndviType : String) (scenes : List EEImage) :
    fvcPixel y ndvi_soil ndvi_soil = none
  ∧ (processPeriod satellite ndviType false ndvi_soil ndvi_soil scenes).isOk
      = true := by
  constructor
  · match y with
    | none => rfl
    | some z => simp [fvcPixel]
  · unfold processPeriod
    cases h : (scenes.map (processScene satellite)).isEmpty <;> simp [h] <;> rfl

/-- C4: evaluating the code at the failing input - automatic-threshold mode on
any nonempty period - shows the period aborts with the JavaScript
ReferenceError for the undeclared variable ndviMax (src/unnamed/part_001 line
189), before any percentile is estimated and without falling back to the
fixed defaults; the error propagates out of the forEach and is fatal to the
whole batch. -/
theorem auto_threshold_reads_undeclared_ndviMax (satellite ndviType : String)
    (ndvi_soil ndvi_veg : ℚ) (s : EEImage) (rest : List EEImage)
    (batchRest : List (List EEImage)) :
    processPeriod satellite ndviType true ndvi_soil ndvi_veg (s :: rest) =
      .error (.refErr "ndviMax")
  ∧ processBatch satellite ndviType true ndvi_soil ndvi_veg
      ((s :: rest) :: batchRest) = .error (.refErr "ndviMax") := by
  have h1 : processPeriod satellite ndviType true ndvi_soil ndvi_veg (s :: rest) =
      .error (.refErr "ndviMax") := by
    simp [processPeriod]
  refine ⟨h1, ?_⟩
  unfold processBatch
  rw [h1]

/-- Counterexample to C5: the fixed-mode defaults are applied with the
JavaScript falsy-or idiom, so the caller-supplied pair (0, 0.5) is not
returned unchanged - the supplied soil value 0 is replaced by the
default 0.2. -/
theorem fixed_thresholds_zero_replaced_counterexample :
    fixedThresholds (some 0) (some (1/2)) = (2/10, 1/2)
  ∧ fixedThresholds (some 0) (some (1/2)) ≠ (0, 1/2) := by
  constructor
  · norm_num [fixedThresholds, jsOrDefault]
  · norm_num [fixedThresholds, jsOrDefault]

/-- C5 as amended: in fixed threshold mode the estimator returns the supplied
pair unchanged whenever both values are nonzero; it substitutes the defaults
0.2 (soil) and 0.86 (vegetation) when a value is unspecified or equal to 0,
because 0 is falsy in JavaScript. -/
theorem fixed_thresholds_pass_through_nonzero (s v : ℚ) (hs : s ≠ 0)
    (hv : v ≠ 0) :
    fixedThresholds (some s) (some v) = (s, v)
  ∧ fixedThresholds none none = (2/10, 86/100)
  ∧ fixedThresholds (some 0) none = (2/10, 86/100)
  ∧ fixedThresholds none (some 0) = (2/10, 86/100) := by
  refine ⟨?_, rfl, ?_, ?_⟩
  · simp [fixedThresholds, jsOrDefault, hs, hv]
  · simp [fixedThresholds, jsOrDefault]
  · simp [fixedThresholds, jsOrDefault]

/-- Witness for the amended C5: the supplied nonzero pair (0.3, 0.9) is
returned exactly. -/
theorem fixed_thresholds_pass_through_nonzero_witness :
    fixedThresholds (some (3/10)) (some (9/10)) = (3/10, 9/10) :=
  (fixed_thresholds_pass_through_nonzero (3/10) (9/10) (by norm_num)
    (by norm_num)).1

lemma foldl_max_spec (xs : List ℚ) : ∀ x : ℚ,
    xs.foldl max x ∈ x :: xs ∧ x ≤ xs.foldl max x ∧
      ∀ y ∈ xs, y ≤ xs.foldl max x := by
  induction xs with
  | nil => intro x; simp
  | cons y ys ih =>
    intro x
    have h := ih (max x y)
    have hfold : (y :: ys).foldl max x = ys.foldl max (max x y) := rfl
    refine ⟨?_, ?_, ?_⟩
    · rw [hfold]
      rcases List.mem_cons.mp h.1 with hm | hm
      · rcases max_choice x y with hc | hc
        · rw [hm, hc]; exact List.mem_cons_self _ _
        · rw [hm, hc]; exact List.mem_cons_of_mem _ (List.mem_cons_self _ _)
      · exact List.mem_cons_of_mem _ (List.mem_cons_of_mem _ hm)
    · rw [hfold]
      exact le_trans (le_max_left x y) h.2.1
    · intro z hz
      rw [hfold]
      rcases List.mem_cons.mp hz with hz | hz
      · rw [hz]
        exact le_trans (le_max_right x y) h.2.1
      · exact h.2.2 z hz

lemma aggMax_eq_none_iff (l : List (Option ℚ)) :
    aggMax l = none ↔ validVals l = [] := by
  unfold aggMax
  cases validVals l <;> simp

lemma aggMax_eq_some_iff (l : List (Option ℚ)) (m : ℚ) :
    aggMax l = some m ↔ m ∈ validVals l ∧ ∀ x ∈ validVals l, x ≤ m := by
  unfold aggMax
  cases h : validVals l with
  | nil => simp
  | cons x xs =>
    have hs := foldl_max_spec xs x
    constructor
    · intro hm
      rw [Option.some.injEq] at hm
      subst hm
      refine ⟨hs.1, ?_⟩
      intro z hz
      rcases List.mem_cons.mp hz with hz | hz
      · exact hz ▸ hs.2.1
      · exact hs.2.2 z hz
    · rintro ⟨hm, hub⟩
      rw [Option.some.injEq]
      exact le_antisymm (hub _ hs.1)
        (by rcases List.mem_cons.mp hm with h1 | h1
            · exact h1 ▸ hs.2.1
            · exact hs.2.2 m h1)

lemma aggMean_of_ne_nil (l : List (Option ℚ)) (h : validVals l ≠ []) :
    aggMean l = some ((validVals l).sum / (validVals l).length) := by
  unfold aggMean
  cases hv : validVals l with
  | nil => exact absurd hv h
  | cons x xs => rfl

/-- C6: the temporal aggregate at a pixel is computed only over the valid
(unmasked) contributions: on the stack [0.1, 0.5, no-value, 0.3] the mean is
0.3 and the max is 0.5; a pixel with no valid contribution is masked in both
composites; the mean is the arithmetic mean of the valid contributions and the
max is their maximum; and permuting the scene order changes neither
statistic. -/
theorem temporal_aggregates_over_valid_contributions :
    (aggMean [some (1/10), some (1/2), none, some (3/10)] = some (3/10)
      ∧ aggMax [some (1/10), some (1/2), none, some (3/10)] = some (1/2))
  ∧ (∀ l, validVals l = [] → aggMean l = none ∧ aggMax l = none)
  ∧ (∀ l, validVals l ≠ [] →
      aggMean l = some ((validVals l).sum / (validVals l).length))
  ∧ (∀ l m, aggMax l = some m → m ∈ validVals l ∧ ∀ x ∈ validVals l, x ≤ m)
  ∧ (∀ l l' : List (Option ℚ), l.Perm l' →
      aggMean l = aggMean l' ∧ aggMax l = aggMax l') := by
  refine ⟨⟨?_, ?_⟩, fun l h => ⟨?_, ?_⟩, aggMean_of_ne_nil,
    fun l m hm => (aggMax_eq_some_iff l m).mp hm, fun l l' hperm => ⟨?_, ?_⟩⟩
  · norm_num [aggMean, validVals, List.filterMap]
  · norm_num [aggMax, validVals, List.filterMap]
  · unfold aggMean
    rw [h]
  · unfold aggMax
    rw [h]
  · have hvv : (validVals l).Perm (validVals l') := hperm.filterMap id
    cases hv : validVals l with
    | nil =>
      have hv' : validVals l' = [] := List.Perm.eq_nil (hv ▸ hvv).symm
      unfold aggMean
      rw [hv, hv']
    | cons x xs =>
      have hne : validVals l ≠ [] := by rw [hv]; exact List.cons_ne_nil x xs
      have hne' : validVals l' ≠ [] := by
        intro h0
        exact hne (List.Perm.eq_nil (h0 ▸ hvv))
      rw [aggMean_of_ne_nil l hne, aggMean_of_ne_nil l' hne',
        hvv.sum_eq, hvv.length_eq]
  · have hvv : (validVals l).Perm (validVals l') := hperm.filterMap id
    cases hm : aggMax l with
    | none =>
      rw [aggMax_eq_none_iff] at hm
      have : aggMax l' = none := by
        rw [aggMax_eq_none_iff]
        exact List.Perm.eq_nil (hm ▸ hvv).symm
      rw [this]
    | some m =>
      rw [aggMax_eq_some_iff] at hm
      rw [eq_comm, aggMax_eq_some_iff]
      exact ⟨hvv.mem_iff.mp hm.1, fun x hx => hm.2 x (hvv.mem_iff.mpr hx)⟩

/-- Witness for C6: the mean and max composites coincide on the swapped
two-scene stacks [1, no-value] and [no-value, 1]. -/
theorem temporal_aggregates_witness :
    aggMean [some 1, none] = aggMean [none, some 1]
  ∧ aggMax [some 1, none] = aggMax [none, some 1] :=
  temporal_aggregates_over_valid_contributions.2.2.2.2
    [some 1, none] [none, some 1] (List.Perm.swap none (some 1) [])

lemma processPeriod_fixed_ok (satellite ndviType : String) (a b : ℚ)
    (ps : List EEImage) :
    ∃ o, processPeriod satellite ndviType false a b ps = .ok o := by
  unfold processPeriod
  cases h : (ps.map (processScene satellite)).isEmpty <;> simp [h]

lemma processPeriod_nil (satellite ndviType : String) (a b : ℚ) :
    processPeriod satellite ndviType false a b [] = .ok none := rfl

/-- C7: in a batch of time periods processed in fixed-threshold mode, a period
with an empty scene collection contributes no raster output (it is skipped
with a warning, reported as the `none` slot) and raises no fatal error, and
every other period of the batch - before or after it - is still processed
normally: the batch always completes with one slot per period. -/
theorem empty_period_isolated_in_batch (satellite ndviType : String)
    (ndvi_soil ndvi_veg : ℚ) (pre post : List (List EEImage)) :
    ∃ xs ys,
      processBatch satellite ndviType false ndvi_soil ndvi_veg pre = .ok xs
    ∧ processBatch satellite ndviType false ndvi_soil ndvi_veg post = .ok ys
    ∧ processBatch satellite ndviType false ndvi_soil ndvi_veg
        (pre ++ [] :: post) = .ok (xs ++ none :: ys)
    ∧ xs.length = pre.length ∧ ys.length = post.length := by
  have hpost : ∀ batch : List (List EEImage),
      ∃ ys, processBatch satellite ndviType false ndvi_soil ndvi_veg batch
          = .ok ys ∧ ys.length = batch.length := by
    intro batch
    induction batch with
    | nil => exact ⟨[], rfl, rfl⟩
    | cons ps rest ih =>
      obtain ⟨o, ho⟩ := processPeriod_fixed_ok satellite ndviType
        ndvi_soil ndvi_veg ps
      obtain ⟨ys, hys, hlen⟩ := ih
      refine ⟨o :: ys, ?_, by simp [hlen]⟩
      unfold processBatch
      rw [ho, hys]
  induction pre with
  | nil =>
    obtain ⟨ys, hys, hlen⟩ := hpost post
    refine ⟨[], ys, rfl, hys, ?_, rfl, hlen⟩
    show processBatch satellite ndviType false ndvi_soil ndvi_veg
      ([] :: post) = .ok (none :: ys)
    unfold processBatch
    rw [processPeriod_nil, hys]
  | cons ps pre ih =>
    obtain ⟨xs, ys, hxs, hys, happ, hlx, hly⟩ := ih
    obtain ⟨o, ho⟩ := processPeriod_fixed_ok satellite ndviType
      ndvi_soil ndvi_veg ps
    refine ⟨o :: xs, ys, ?_, hys, ?_, by simp [hlx], hly⟩
    · unfold processBatch
      rw [ho, hxs]
    · show processBatch satellite ndviType false ndvi_soil ndvi_veg
        (ps :: (pre ++ [] :: post)) = .ok (o :: (xs ++ none :: ys))
      unfold processBatch
      rw [ho, happ]

lemma cloudMaskBit_natCast (q : ℕ) :
    cloudMaskBit ((q : ℕ) : ℚ) = (q.testBit 3 || q.testBit 4) := by
  unfold cloudMaskBit qaToNat
  have hq : ((q : ℚ)).num.toNat = q := by simp
  rw [hq, show (1 <<< 3 : ℕ) = 2 ^ 3 from rfl,
    show (1 <<< 4 : ℕ) = 2 ^ 4 from rfl, Nat.and_two_pow, Nat.and_two_pow]
  cases q.testBit 3 <;> cases q.testBit 4 <;> norm_num

lemma selectBand_map_bands (l : List (String × Pix))
    (g : (String × Pix) → Pos → Option ℚ) (name : String) (p : Pos) :
    selectBand ⟨l.map (fun b => (b.1, g b))⟩ name p =
      match l.find? (fun b => b.1 == name) with
      | some b => g b p
      | none => none := by
  unfold selectBand
  rw [List.find?_map]
  have hcomp : ((fun (b : String × Pix) => b.1 == name) ∘
      (fun (b : String × Pix) => ((b.1, g b) : String × Pix))) =
      fun (b : String × Pix) => b.1 == name := rfl
  rw [hcomp]
  cases l.find? (fun b => b.1 == name) <;> rfl

/-- C8: for every image and pixel whose 16-bit QA value is q, maskClouds
leaves the pixel valid in every band exactly when neither bit 3 (cloud
shadow) nor bit 4 (cloud) of q is set, and masks it in every band when either
bit is set; the band list of the scene is kept, the scene is not deleted. -/
theorem cloud_mask_bits_3_4 (img : EEImage) (p : Pos) (q : ℕ)
    (hq : selectBand img "QA_PIXEL" p = some ((q : ℕ) : ℚ)) :
    (∀ name, selectBand (maskClouds img) name p =
      if q.testBit 3 || q.testBit 4 then none else selectBand img name p)
  ∧ bandNames (maskClouds img) = bandNames img := by
  constructor
  · intro name
    have h := selectBand_map_bands img.bands (fun b => fun pt =>
        match selectBand img "QA_PIXEL" pt with
        | none => none
        | some v => if cloudMaskBit v then none else b.2 pt) name p
    refine h.trans ?_
    cases hfind : img.bands.find? (fun b => b.1 == name) with
    | none =>
      show none = if q.testBit 3 || q.testBit 4 then none
        else selectBand img name p
      unfold selectBand
      rw [hfind]
      cases q.testBit 3 || q.testBit 4 <;> rfl
    | some b =>
      show (match selectBand img "QA_PIXEL" p with
        | none => none
        | some v => if cloudMaskBit v then none else b.2 p) =
          if q.testBit 3 || q.testBit 4 then none else selectBand img name p
      rw [hq]
      show (if cloudMaskBit ((q : ℕ) : ℚ) then none else b.2 p) =
        if q.testBit 3 || q.testBit 4 then none else selectBand img name p
      rw [cloudMaskBit_natCast]
      unfold selectBand
      rw [hfind]
  · simp only [bandNames, maskClouds, List.map_map]
    rfl

/-- Two-band scene whose QA value 24 has bits 3 and 4 set (binary 11000). -/
def sceneCloudy : EEImage :=
  ⟨[("QA_PIXEL", fun _ => some ((24 : ℕ) : ℚ)),
    ("SR_B4", fun _ => some 100)]⟩

/-- Two-band scene whose QA value 1 has neither bit 3 nor bit 4 set. -/
def sceneClear : EEImage :=
  ⟨[("QA_PIXEL", fun _ => some ((1 : ℕ) : ℚ)),
    ("SR_B4", fun _ => some 100)]⟩

/-- Witness for C8: QA 24 (binary 11000, bits 3 and 4 set) masks the
reflectance pixel; QA 1 (binary 00001) leaves it valid. -/
theorem cloud_mask_bits_3_4_witness :
    selectBand (maskClouds sceneCloudy) "SR_B4" (0, 0) = none
  ∧ selectBand (maskClouds sceneClear) "SR_B4" (0, 0) = some 100 := by
  constructor
  · rw [(cloud_mask_bits_3_4 sceneCloudy (0, 0) 24 rfl).1 "SR_B4"]
    rfl
  · rw [(cloud_mask_bits_3_4 sceneClear (0, 0) 1 rfl).1 "SR_B4"]
    rfl

/-- C9: every supported satellite identifier resolves to one of exactly two
fixed band mappings - the modern one (NIR SR_B5, Red SR_B4) for L8 and L9,
the legacy one (NIR SR_B4, Red SR_B3) for L4, L5 and L7 - and every
identifier outside the supported set makes the pipeline fail with the
unknown-satellite error during parameter validation, uniformly in the scene
collection, hence before any imagery is touched. -/
theorem band_profiles_and_unknown_satellite :
    (getBandNames "L8" = ⟨"SR_B5", "SR_B4"⟩
      ∧ getBandNames "L9" = ⟨"SR_B5", "SR_B4"⟩
      ∧ getBandNames "L4" = ⟨"SR_B4", "SR_B3"⟩
      ∧ getBandNames "L5" = ⟨"SR_B4", "SR_B3"⟩
      ∧ getBandNames "L7" = ⟨"SR_B4", "SR_B3"⟩)
  ∧ (∀ id, id ∈ ["L4", "L5", "L7", "L8", "L9"] →
      (lookupSatellite id).isSome = true)
  ∧ (∀ id, id ∉ ["L4", "L5", "L7", "L8", "L9"] →
      ∀ statType scenes, calculateNDVIStats id statType scenes =
        Except.error (.unknownSatellite id)) := by
  refine ⟨⟨rfl, rfl, rfl, rfl, rfl⟩, ?_, ?_⟩
  · intro id hid
    simp only [List.mem_cons, List.not_mem_nil, or_false] at hid
    rcases hid with rfl | rfl | rfl | rfl | rfl <;> rfl
  · intro id hid statType scenes
    have hfind : lookupSatellite id = none := by
      unfold lookupSatellite
      rw [List.find?_eq_none.mpr]
      · rfl
      · intro x hx
        simp only [SATELLITES, List.mem_cons, List.not_mem_nil, or_false] at hx
        simp only [List.mem_cons, List.not_mem_nil, or_false, not_or] at hid
        rcases hx with rfl | rfl | rfl | rfl | rfl <;>
          simp only [beq_iff_eq] <;>
          exact fun h => (by tauto : id ∉ ({"L4", "L5", "L7", "L8", "L9"} : Set String)) (by simp [h.symm])
    simp [calculateNDVIStats, hfind]

/-- Witness for C9: the unsupported identifier L10 is rejected with the
unknown-satellite error on an arbitrary (here empty) catalog. -/
theorem band_profiles_and_unknown_satellite_witness :
    calculateNDVIStats "L10" "mean" [] =
      Except.error (.unknownSatellite "L10") :=
  band_profiles_and_unknown_satellite.2.2 "L10" (by decide) "mean" []

lemma selectBand_append_of_mem (l : List (String × Pix)) (nb : String × Pix)
    (name : String) (h : name ∈ l.map Prod.fst) :
    selectBand ⟨l ++ [nb]⟩ name = selectBand ⟨l⟩ name := by
  funext p
  unfold selectBand
  rw [List.find?_append]
  have hsome : (l.find? (fun b => b.1 == name)).isSome := by
    rw [List.find?_isSome]
    obtain ⟨b, hb, hfst⟩ := List.mem_map.mp h
    exact ⟨b, hb, by simp [hfst]⟩
  cases hf : l.find? (fun b => b.1 == name) with
  | none => rw [hf] at hsome; simp at hsome
  | some b => rfl

/-- C10: computeNDVI and computeNDBI return the input image with every
original band present under its original name and with its pixel values
unchanged (selecting any original band name reads the original band), and
with exactly one band appended: NDVI for computeNDVI, NDBI for computeNDBI. -/
theorem compute_index_adds_single_band (img : EEImage) (satellite : String) :
    bandNames (computeNDVI img satellite) = bandNames img ++ ["NDVI"]
  ∧ (∀ b ∈ img.bands, b ∈ (computeNDVI img satellite).bands)
  ∧ (∀ name, name ∈ bandNames img →
      selectBand (computeNDVI img satellite) name = selectBand img name)
  ∧ bandNames (computeNDBI img satellite) = bandNames img ++ ["NDBI"]
  ∧ (∀ b ∈ img.bands, b ∈ (computeNDBI img satellite).bands)
  ∧ (∀ name, name ∈ bandNames img →
      selectBand (computeNDBI img satellite) name = selectBand img name) := by
  refine ⟨?_, ?_, ?_, ?_, ?_, ?_⟩
  · simp [bandNames, computeNDVI]
  · intro b hb
    show b ∈ img.bands ++ _
    exact List.mem_append_left _ hb
  · intro name h
    exact selectBand_append_of_mem img.bands _ name h
  · simp [bandNames, computeNDBI]
  · intro b hb
    show b ∈ img.bands ++ _
    exact List.mem_append_left _ hb
  · intro name h
    exact selectBand_append_of_mem img.bands _ name h

/-- Plain two-band scene used as the concrete input of the C10 witness. -/
def baseScene : EEImage :=
  ⟨[("QA_PIXEL", fun _ => some ((1 : ℕ) : ℚ)),
    ("SR_B4", fun _ => some 200)]⟩

/-- Witness for C10 on a concrete two-band scene: computeNDVI appends exactly
the NDVI band and reading SR_B4 afterwards still reads the original band. -/
theorem compute_index_adds_single_band_witness :
    bandNames (computeNDVI baseScene "L8") = ["QA_PIXEL", "SR_B4", "NDVI"]
  ∧ selectBand (computeNDVI baseScene "L8") "SR_B4" =
      selectBand baseScene "SR_B4"
  ∧ bandNames (computeNDBI baseScene "L8") = ["QA_PIXEL", "SR_B4", "NDBI"] := by
  refine ⟨?_, ?_, ?_⟩
  · rw [(compute_index_adds_single_band baseScene "L8").1]
    rfl
  · exact (compute_index_adds_single_band baseScene "L8").2.2.1 "SR_B4"
      (by simp [bandNames, baseScene])
  · rw [(compute_index_adds_single_band baseScene "L8").2.2.2.1]
    rfl
